import Mathlib

set_option autoImplicit false

/-!
Verification of `ConsciousnessThresholds` (Architects-Forge).

The source is a single Python class holding four metrics
(`global_delta_c`, `recursive_modeling_score`, `memory_integrity_score`,
`domain_stabilization`) with two methods: `update_metrics`, which replaces
the three scalars and merges a dictionary of domain updates into the stored
mapping, and `is_conscious`, which checks the metrics against a threshold
dictionary (defaulted when the argument is `None`).

Shallow embedding choices:
* Python floats are modelled as `ℚ` (the thresholds are exact decimals and
  the code only compares, never does arithmetic).
* The `domain_stabilization` dictionary is modelled as an association list
  `List (String × ℚ)`; `setEntry` mirrors `d[k] = v` (overwrite in place if
  the key is present, append otherwise) and `lookupD` mirrors `d.get(k)`.
* A threshold dictionary is modelled as `ThresholdsDict`, a record of
  `Option` fields: a missing key is `none`, and reading a missing key makes
  the evaluation return `none` (Python's `KeyError`), in the exact order in
  which the source reads the keys.
* `Thresholds` is the record of fully-populated policies;
  `is_conscious` is evaluation against such a policy, and
  `is_conscious_dict_toDict` proves it agrees with the dictionary model.
* The method call including its `self` state is `is_conscious_call`,
  returning the result together with the (unchanged) state: the method body
  contains no writes, so the embedding threads the state through untouched.
-/

namespace ArchitectsForge

/-- The mutable state of a `ConsciousnessThresholds` instance: the three
scalar metrics and the domain-stabilization mapping. -/
structure CTState where
  global_delta_c : ℚ
  recursive_modeling_score : ℚ
  memory_integrity_score : ℚ
  domain_stabilization : List (String × ℚ)
deriving DecidableEq

/-- `__init__`: incoherence 1.0, both scores 0.0, empty mapping. -/
def initState : CTState :=
  { global_delta_c := 1
    recursive_modeling_score := 0
    memory_integrity_score := 0
    domain_stabilization := [] }

/-- Dictionary lookup `m.get(d)`: first entry whose key is `d`. -/
def lookupD : List (String × ℚ) → String → Option ℚ
  | [], _ => none
  | (k, v) :: rest, d => if k = d then some v else lookupD rest d

/-- Key list of the mapping. -/
def keysD (m : List (String × ℚ)) : List String :=
  m.map Prod.fst

/-- Dictionary assignment `m[k] = v`: overwrite the entry in place when the
key is already present, append a new entry otherwise. -/
def setEntry : List (String × ℚ) → String → ℚ → List (String × ℚ)
  | [], k, v => [(k, v)]
  | p :: rest, k, v => if p.1 = k then (k, v) :: rest else p :: setEntry rest k v

/-- `update_metrics`: replaces the three scalars and writes every pair of
`domain_updates` into the stored mapping. -/
def update_metrics (s : CTState) (delta_c recursive_score memory_score : ℚ)
    (domain_updates : List (String × ℚ)) : CTState :=
  { global_delta_c := delta_c
    recursive_modeling_score := recursive_score
    memory_integrity_score := memory_score
    domain_stabilization :=
      domain_updates.foldl (fun m p => setEntry m p.1 p.2) s.domain_stabilization }

/-- `self.domain_stabilization.get(domain, 0)`. -/
def getStab (s : CTState) (d : String) : ℚ :=
  (lookupD s.domain_stabilization d).getD 0

/-- A fully-populated threshold policy (a dictionary carrying all five keys
the evaluation reads). -/
structure Thresholds where
  delta_c : ℚ
  recursive_modeling : ℚ
  memory_integrity : ℚ
  min_domain_stabilization : ℚ
  required_domains : List String
deriving DecidableEq

/-- The hard-coded default policy built when `thresholds is None`. -/
def default_thresholds : Thresholds :=
  { delta_c := 1/10
    recursive_modeling := 8/10
    memory_integrity := 85/100
    min_domain_stabilization := 7/10
    required_domains := ["time", "biology", "mind", "learning"] }

/-- The `for domain in thresholds["required_domains"]` loop: fails on the
first required domain whose stored stabilization (0 when absent) is below
the minimum. -/
def checkDomains (s : CTState) (minStab : ℚ) : List String → Bool
  | [] => true
  | d :: rest => if getStab s d < minStab then false else checkDomains s minStab rest

/-- `is_conscious` evaluated against a fully-populated policy: the three
scalar guard clauses in source order, then the required-domains loop. -/
def is_conscious (s : CTState) (t : Thresholds) : Bool :=
  if s.global_delta_c > t.delta_c then false
  else if s.recursive_modeling_score < t.recursive_modeling then false
  else if s.memory_integrity_score < t.memory_integrity then false
  else checkDomains s t.min_domain_stabilization t.required_domains

/-- A threshold dictionary as the caller may actually pass it: any of the
five keys may be absent (`none`). -/
structure ThresholdsDict where
  delta_c : Option ℚ
  recursive_modeling : Option ℚ
  memory_integrity : Option ℚ
  min_domain_stabilization : Option ℚ
  required_domains : Option (List String)
deriving DecidableEq

/-- A fully-populated policy as a dictionary with all five keys present. -/
def toDict (t : Thresholds) : ThresholdsDict :=
  { delta_c := some t.delta_c
    recursive_modeling := some t.recursive_modeling
    memory_integrity := some t.memory_integrity
    min_domain_stabilization := some t.min_domain_stabilization
    required_domains := some t.required_domains }

/-- The required-domains loop over a dictionary policy: the source reads
`thresholds["min_domain_stabilization"]` inside the loop body, so the key
is only demanded when the loop body runs; a missing key is `none`
(Python `KeyError`). -/
def checkDomainsDict (s : CTState) (minStab : Option ℚ) : List String → Option Bool
  | [] => some true
  | d :: rest =>
    match minStab with
    | none => none
    | some m => if getStab s d < m then some false else checkDomainsDict s minStab rest

/-- `is_conscious` against a dictionary policy, reading the keys in source
order; `none` models a `KeyError` raised on a missing key. -/
def is_conscious_dict (s : CTState) (t : ThresholdsDict) : Option Bool :=
  match t.delta_c with
  | none => none
  | some dc =>
    if s.global_delta_c > dc then some false
    else
      match t.recursive_modeling with
      | none => none
      | some rm =>
        if s.recursive_modeling_score < rm then some false
        else
          match t.memory_integrity with
          | none => none
          | some mi =>
            if s.memory_integrity_score < mi then some false
            else
              match t.required_domains with
              | none => none
              | some rd => checkDomainsDict s t.min_domain_stabilization rd

/-- The method with its optional argument: `thresholds=None` selects the
hard-coded default dictionary. -/
def is_conscious_opt (s : CTState) : Option ThresholdsDict → Option Bool
  | none => is_conscious_dict s (toDict default_thresholds)
  | some td => is_conscious_dict s td

/-- The full method call with explicit state threading: the body of
`is_conscious` only reads `self`, so the state component is returned
as received. -/
def is_conscious_call (s : CTState) (t : Option ThresholdsDict) :
    Option Bool × CTState :=
  (is_conscious_opt s t, s)

/-- A call against the component: either an `update_metrics` call or an
`is_conscious` call (with its optional policy argument). -/
inductive Op where
  | updateOp (delta_c recursive_score memory_score : ℚ)
      (domain_updates : List (String × ℚ))
  | evalOp (thresholds : Option ThresholdsDict)
deriving DecidableEq

/-- The state after one call: `update_metrics` mutates, `is_conscious`
returns the state component of the call. -/
def applyOp (s : CTState) : Op → CTState
  | .updateOp dc rs ms du => update_metrics s dc rs ms du
  | .evalOp t => (is_conscious_call s t).2

/-- The state after a sequence of calls, starting from `s`. -/
def runOps (s : CTState) : List Op → CTState :=
  List.foldl applyOp s

/-- A state is reachable when some sequence of calls produces it from the
freshly constructed state. -/
def Reachable (s : CTState) : Prop :=
  ∃ ops : List Op, runOps initState ops = s

/-- The keys an operation writes into the domain mapping. -/
def opKeys : Op → List String
  | .updateOp _ _ _ du => keysD du
  | .evalOp _ => []

/-- Sample domain updates used to instantiate theorems at concrete inputs. -/
def sampleUpdates : List (String × ℚ) :=
  [("time", 8/10), ("biology", 3/4), ("mind", 71/100), ("learning", 99/100)]

/-- A sample state produced by one `update_metrics` call on the fresh state. -/
def sampleState : CTState :=
  update_metrics initState (5/100) (9/10) (9/10) sampleUpdates

/-- A sample fully-populated policy. -/
def samplePolicy : Thresholds :=
  { delta_c := 2/10
    recursive_modeling := 1/2
    memory_integrity := 1/2
    min_domain_stabilization := 6/10
    required_domains := ["mind", "time"] }

/-- `samplePolicy` with its required-domains list reversed. -/
def samplePolicyRev : Thresholds :=
  { delta_c := 2/10
    recursive_modeling := 1/2
    memory_integrity := 1/2
    min_domain_stabilization := 6/10
    required_domains := ["time", "mind"] }

/-- A state passing the first scalar guard of the default policy. -/
def passingState : CTState :=
  { global_delta_c := 5/100
    recursive_modeling_score := 9/10
    memory_integrity_score := 9/10
    domain_stabilization := [] }

/-- A fully-populated policy requiring no domains at all. -/
def emptyReqPolicy : Thresholds :=
  { delta_c := 1/10
    recursive_modeling := 8/10
    memory_integrity := 85/100
    min_domain_stabilization := 7/10
    required_domains := [] }

/-- A policy dictionary carrying only the `delta_c` key. -/
def onlyDeltaC : ThresholdsDict :=
  { delta_c := some (1/10)
    recursive_modeling := none
    memory_integrity := none
    min_domain_stabilization := none
    required_domains := none }

@[simp]
theorem keysD_nil : keysD [] = [] := rfl

@[simp]
theorem keysD_cons (p : String × ℚ) (rest : List (String × ℚ)) :
    keysD (p :: rest) = p.1 :: keysD rest := rfl

theorem lookupD_setEntry_self (m : List (String × ℚ)) (k : String) (v : ℚ) :
    lookupD (setEntry m k v) k = some v := by
  induction m with
  | nil => simp [setEntry, lookupD]
  | cons p rest ih =>
    by_cases h : p.1 = k
    · simp [setEntry, h, lookupD]
    · simp [setEntry, h, lookupD, ih]

theorem lookupD_setEntry_ne (m : List (String × ℚ)) (k k' : String) (v : ℚ)
    (h : k' ≠ k) :
    lookupD (setEntry m k v) k' = lookupD m k' := by
  induction m with
  | nil => simp [setEntry, lookupD, Ne.symm h]
  | cons p rest ih =>
    by_cases hp : p.1 = k
    · simp only [setEntry, hp, if_pos]
      simp [lookupD, Ne.symm h, hp]
    · simp only [setEntry, hp, if_neg, not_false_iff]
      simp [lookupD, ih]

theorem mem_keysD_setEntry (m : List (String × ℚ)) (k v : _) (k' : String) :
    k' ∈ keysD (setEntry m k v) ↔ k' ∈ keysD m ∨ k' = k := by
  induction m with
  | nil => simp [setEntry]
  | cons p rest ih =>
    by_cases h : p.1 = k
    · simp only [setEntry, h, if_pos, keysD_cons]
      subst h
      simp
      tauto
    · simp only [setEntry, h, if_neg, not_false_iff, keysD_cons]
      simp [ih]
      tauto

theorem lookupD_foldSet_notMem (du : List (String × ℚ)) (m0 : List (String × ℚ))
    (k : String) (hk : k ∉ keysD du) :
    lookupD (du.foldl (fun m p => setEntry m p.1 p.2) m0) k = lookupD m0 k := by
  induction du generalizing m0 with
  | nil => rfl
  | cons p rest ih =>
    rw [List.foldl_cons]
    have h1 : k ∉ keysD rest := fun hmem => hk (by simp [hmem])
    have h2 : k ≠ p.1 := fun heq => hk (by simp [heq])
    rw [ih _ h1, lookupD_setEntry_ne _ _ _ _ h2]

theorem lookupD_foldSet_mem (du : List (String × ℚ)) (m0 : List (String × ℚ))
    (k : String) (v : ℚ) (hmem : (k, v) ∈ du) (hnd : (keysD du).Nodup) :
    lookupD (du.foldl (fun m p => setEntry m p.1 p.2) m0) k = some v := by
  induction du generalizing m0 with
  | nil => cases hmem
  | cons p rest ih =>
    rw [List.foldl_cons]
    rw [keysD_cons, List.nodup_cons] at hnd
    rcases List.mem_cons.mp hmem with heq | hmem2
    · have hk : k ∉ keysD rest := by rw [← heq] at hnd; exact hnd.1
      rw [lookupD_foldSet_notMem _ _ _ hk, ← heq]
      exact lookupD_setEntry_self m0 k v
    · exact ih _ hmem2 hnd.2

theorem mem_keysD_foldSet (du : List (String × ℚ)) (m0 : List (String × ℚ))
    (k : String) :
    k ∈ keysD (du.foldl (fun m p => setEntry m p.1 p.2) m0) ↔
      k ∈ keysD m0 ∨ k ∈ keysD du := by
  induction du generalizing m0 with
  | nil => simp
  | cons p rest ih =>
    rw [List.foldl_cons, ih, mem_keysD_setEntry]
    simp
    tauto

theorem checkDomains_eq_true (s : CTState) (minStab : ℚ) (l : List String) :
    checkDomains s minStab l = true ↔ ∀ d ∈ l, ¬ getStab s d < minStab := by
  induction l with
  | nil => simp [checkDomains]
  | cons d rest ih =>
    by_cases h : getStab s d < minStab
    · simp [checkDomains, h]
    · rw [checkDomains, if_neg h, ih]
      simp only [List.forall_mem_cons]
      exact ⟨fun hr => ⟨h, hr⟩, fun hr => hr.2⟩

theorem is_conscious_eq_true (s : CTState) (t : Thresholds) :
    is_conscious s t = true ↔
      ¬ s.global_delta_c > t.delta_c ∧
      ¬ s.recursive_modeling_score < t.recursive_modeling ∧
      ¬ s.memory_integrity_score < t.memory_integrity ∧
      ∀ d ∈ t.required_domains, ¬ getStab s d < t.min_domain_stabilization := by
  rw [is_conscious]
  by_cases h1 : s.global_delta_c > t.delta_c
  · simp [h1]
  · by_cases h2 : s.recursive_modeling_score < t.recursive_modeling
    · simp [h1, h2]
    · by_cases h3 : s.memory_integrity_score < t.memory_integrity
      · simp [h1, h2, h3]
      · simp [h1, h2, h3, checkDomains_eq_true]

theorem is_conscious_false_of_violation (s : CTState) (t : Thresholds)
    (h : t.delta_c < s.global_delta_c ∨
      s.recursive_modeling_score < t.recursive_modeling ∨
      s.memory_integrity_score < t.memory_integrity ∨
      ∃ d ∈ t.required_domains, getStab s d < t.min_domain_stabilization) :
    is_conscious s t = false := by
  cases hb : is_conscious s t with
  | false => rfl
  | true =>
    exfalso
    rw [is_conscious_eq_true] at hb
    obtain ⟨h1, h2, h3, h4⟩ := hb
    rcases h with h | h | h | ⟨d, hd, hlt⟩
    · exact h1 h
    · exact h2 h
    · exact h3 h
    · exact h4 d hd hlt

theorem checkDomainsDict_some (s : CTState) (m : ℚ) (l : List String) :
    checkDomainsDict s (some m) l = some (checkDomains s m l) := by
  induction l with
  | nil => rfl
  | cons d rest ih =>
    by_cases h : getStab s d < m
    · simp [checkDomainsDict, checkDomains, h]
    · simp [checkDomainsDict, checkDomains, h, ih]

theorem is_conscious_dict_toDict (s : CTState) (t : Thresholds) :
    is_conscious_dict s (toDict t) = some (is_conscious s t) := by
  rw [is_conscious_dict, is_conscious, toDict]
  by_cases h1 : s.global_delta_c > t.delta_c
  · simp [h1]
  · by_cases h2 : s.recursive_modeling_score < t.recursive_modeling
    · simp [h1, h2]
    · by_cases h3 : s.memory_integrity_score < t.memory_integrity
      · simp [h1, h2, h3]
      · simp [h1, h2, h3, checkDomainsDict_some]

theorem bool_eq_of_iff {a b : Bool} (h : a = true ↔ b = true) : a = b := by
  cases a <;> cases b <;> simp_all

theorem mem_keysD_runOps (ops : List Op) (s : CTState) (k : String) :
    k ∈ keysD (runOps s ops).domain_stabilization ↔
      k ∈ keysD s.domain_stabilization ∨ ∃ o ∈ ops, k ∈ opKeys o := by
  induction ops generalizing s with
  | nil => simp [runOps]
  | cons op rest ih =>
    have hstep : runOps s (op :: rest) = runOps (applyOp s op) rest := rfl
    have hcons : (∃ o ∈ op :: rest, k ∈ opKeys o) ↔
        k ∈ opKeys op ∨ ∃ o ∈ rest, k ∈ opKeys o := by
      constructor
      · rintro ⟨o, ho, hk⟩
        rcases List.mem_cons.mp ho with rfl | ho2
        · exact Or.inl hk
        · exact Or.inr ⟨o, ho2, hk⟩
      · rintro (hk | ⟨o, ho, hk⟩)
        · exact ⟨op, List.mem_cons_self _ _, hk⟩
        · exact ⟨o, List.mem_cons_of_mem _ ho, hk⟩
    have hkeys : k ∈ keysD (applyOp s op).domain_stabilization ↔
        k ∈ keysD s.domain_stabilization ∨ k ∈ opKeys op := by
      cases op with
      | updateOp dc rs ms du =>
        simp only [applyOp, update_metrics, opKeys]
        exact mem_keysD_foldSet du s.domain_stabilization k
      | evalOp t => simp [applyOp, is_conscious_call, opKeys]
    rw [hstep, ih, hcons, hkeys]
    tauto

/-- Claim C1: for every state reachable by calls in which the global
incoherence is at most 0.1, the self-modeling score is at least 0.8, the
memory-integrity score is at least 0.85, and each of the domains time,
biology, mind and learning has a stored stabilization value of at least
0.7, `is_conscious` called with no policy argument returns `True`. -/
theorem C1_default_evaluate_true (s : CTState) (_hr : Reachable s)
    (h1 : s.global_delta_c ≤ 1/10)
    (h2 : 8/10 ≤ s.recursive_modeling_score)
    (h3 : 85/100 ≤ s.memory_integrity_score)
    (h4 : ∀ d ∈ ["time", "biology", "mind", "learning"],
      ∃ v, lookupD s.domain_stabilization d = some v ∧ 7/10 ≤ v) :
    is_conscious_opt s none = some true := by
  have hic : is_conscious s default_thresholds = true := by
    rw [is_conscious_eq_true]
    refine ⟨?_, ?_, ?_, ?_⟩
    · show ¬ s.global_delta_c > (1/10 : ℚ)
      exact not_lt.mpr h1
    · show ¬ s.recursive_modeling_score < (8/10 : ℚ)
      exact not_lt.mpr h2
    · show ¬ s.memory_integrity_score < (85/100 : ℚ)
      exact not_lt.mpr h3
    · intro d hd
      obtain ⟨v, hv, hv7⟩ := h4 d hd
      show ¬ getStab s d < (7/10 : ℚ)
      rw [show getStab s d = v from by simp [getStab, hv]]
      exact not_lt.mpr hv7
  calc is_conscious_opt s none
      = is_conscious_dict s (toDict default_thresholds) := rfl
    _ = some (is_conscious s default_thresholds) :=
        is_conscious_dict_toDict s default_thresholds
    _ = some true := by rw [hic]

/-- Witness for C1: one `update_metrics` call from the fresh state meeting
every threshold makes the default evaluation return `True`. -/
theorem C1_default_evaluate_true_witness :
    is_conscious_opt sampleState none = some true := by
  apply C1_default_evaluate_true
  · exact ⟨[Op.updateOp (5/100) (9/10) (9/10) sampleUpdates], rfl⟩
  · norm_num [sampleState, update_metrics]
  · norm_num [sampleState, update_metrics]
  · norm_num [sampleState, update_metrics]
  · intro d hd
    fin_cases hd
    · exact ⟨8/10, by simp +decide [sampleState, update_metrics, initState,
        sampleUpdates, setEntry, lookupD, List.foldl_cons, List.foldl_nil], by norm_num⟩
    · exact ⟨3/4, by simp +decide [sampleState, update_metrics, initState,
        sampleUpdates, setEntry, lookupD, List.foldl_cons, List.foldl_nil], by norm_num⟩
    · exact ⟨71/100, by simp +decide [sampleState, update_metrics, initState,
        sampleUpdates, setEntry, lookupD, List.foldl_cons, List.foldl_nil], by norm_num⟩
    · exact ⟨99/100, by simp +decide [sampleState, update_metrics, initState,
        sampleUpdates, setEntry, lookupD, List.foldl_cons, List.foldl_nil], by norm_num⟩

/-- Claim C2: on the freshly constructed state (incoherence 1.0, both
scores 0.0, empty mapping), the evaluation with the defaulted policy
returns `False`. -/
theorem C2_fresh_evaluate_false :
    is_conscious_opt initState none = some false := by
  have h : is_conscious initState default_thresholds = false :=
    is_conscious_false_of_violation _ _
      (Or.inl (by norm_num [initState, default_thresholds]))
  calc is_conscious_opt initState none
      = some (is_conscious initState default_thresholds) :=
        is_conscious_dict_toDict initState default_thresholds
    _ = some false := by rw [h]

/-- Claim C3: each of the four condition classes is individually
necessary: from any state passing an evaluation, violating exactly one
bound (incoherence above the max, a score below its min, or one required
domain's stabilization below the domain min) makes the evaluation return
`False`. -/
theorem C3_conditions_necessary (s : CTState) (t : Thresholds)
    (_htrue : is_conscious s t = true) :
    (∀ x, t.delta_c < x →
      is_conscious { s with global_delta_c := x } t = false) ∧
    (∀ x, x < t.recursive_modeling →
      is_conscious { s with recursive_modeling_score := x } t = false) ∧
    (∀ x, x < t.memory_integrity →
      is_conscious { s with memory_integrity_score := x } t = false) ∧
    (∀ d x, d ∈ t.required_domains → x < t.min_domain_stabilization →
      is_conscious
        { s with domain_stabilization := setEntry s.domain_stabilization d x }
        t = false) := by
  refine ⟨?_, ?_, ?_, ?_⟩
  · intro x hx
    exact is_conscious_false_of_violation _ _ (Or.inl hx)
  · intro x hx
    exact is_conscious_false_of_violation _ _ (Or.inr (Or.inl hx))
  · intro x hx
    exact is_conscious_false_of_violation _ _ (Or.inr (Or.inr (Or.inl hx)))
  · intro d x hd hx
    refine is_conscious_false_of_violation _ _
      (Or.inr (Or.inr (Or.inr ⟨d, hd, ?_⟩)))
    rw [show getStab
        { s with domain_stabilization := setEntry s.domain_stabilization d x } d
        = x from by simp [getStab, lookupD_setEntry_self]]
    exact hx

/-- Witness for C3: a state passing `samplePolicy` fails it after its
incoherence is raised above the policy maximum. -/
theorem C3_conditions_necessary_witness :
    is_conscious { sampleState with global_delta_c := 3/10 } samplePolicy
      = false :=
  (C3_conditions_necessary sampleState samplePolicy
    (by norm_num +decide [is_conscious, checkDomains, getStab, lookupD, setEntry,
      sampleState, update_metrics, initState, sampleUpdates, samplePolicy,
      List.foldl_cons, List.foldl_nil])).1
    (3/10) (by norm_num [samplePolicy])

/-- Claim C4: a required domain absent from the stored mapping is treated
exactly as stabilization 0, the evaluation still returns a boolean (a
fully-populated policy can never produce a lookup error), and the absence
forces a `False` verdict whenever the policy's minimum domain
stabilization is positive (the default minimum is 0.7). -/
theorem C4_absent_domain (s : CTState) (t : Thresholds) (d : String)
    (hd : d ∈ t.required_domains)
    (habs : lookupD s.domain_stabilization d = none)
    (hpos : 0 < t.min_domain_stabilization) :
    getStab s d = 0 ∧
    is_conscious s t = false ∧
    is_conscious_dict s (toDict t) = some (is_conscious s t) := by
  have hg : getStab s d = 0 := by simp [getStab, habs]
  refine ⟨hg, ?_, is_conscious_dict_toDict s t⟩
  exact is_conscious_false_of_violation _ _
    (Or.inr (Or.inr (Or.inr ⟨d, hd, by rw [hg]; exact hpos⟩)))

/-- Witness for C4: the required domain time is absent from a state whose
scalar metrics all pass, and the default evaluation returns `False`. -/
theorem C4_absent_domain_witness :
    getStab passingState "time" = 0 ∧
    is_conscious passingState default_thresholds = false ∧
    is_conscious_dict passingState (toDict default_thresholds) =
      some (is_conscious passingState default_thresholds) :=
  C4_absent_domain passingState default_thresholds "time"
    (by simp [default_thresholds]) rfl (by norm_num [default_thresholds])

/-- Claim C5: `update_metrics` replaces the three scalar fields with the
supplied values, writes exactly the entries named in the update
dictionary, and leaves every stored entry with a key not in the update
dictionary at its prior value. -/
theorem C5_update_effect (s : CTState) (dc rs ms : ℚ)
    (du : List (String × ℚ)) (hnd : (keysD du).Nodup) :
    (update_metrics s dc rs ms du).global_delta_c = dc ∧
    (update_metrics s dc rs ms du).recursive_modeling_score = rs ∧
    (update_metrics s dc rs ms du).memory_integrity_score = ms ∧
    (∀ k v, (k, v) ∈ du →
      lookupD (update_metrics s dc rs ms du).domain_stabilization k = some v) ∧
    (∀ k, k ∉ keysD du →
      lookupD (update_metrics s dc rs ms du).domain_stabilization k =
        lookupD s.domain_stabilization k) := by
  refine ⟨rfl, rfl, rfl, ?_, ?_⟩
  · intro k v hkv
    exact lookupD_foldSet_mem du s.domain_stabilization k v hkv hnd
  · intro k hk
    exact lookupD_foldSet_notMem du s.domain_stabilization k hk

/-- Witness for C5: the sample update writes the entry it names. -/
theorem C5_update_effect_witness :
    lookupD (update_metrics initState (5/100) (9/10) (9/10)
      sampleUpdates).domain_stabilization "mind" = some (71/100) :=
  (C5_update_effect initState (5/100) (9/10) (9/10) sampleUpdates
    (by decide)).2.2.2.1 "mind" (71/100) (by norm_num [sampleUpdates])

/-- Claim C6: with a policy whose required-domains list is empty, the
verdict is `True` exactly when the three scalar conditions pass, and the
stored domain mapping has no effect on it. -/
theorem C6_empty_required (s : CTState) (t : Thresholds)
    (hreq : t.required_domains = []) :
    (is_conscious s t = true ↔
      (s.global_delta_c ≤ t.delta_c ∧
       t.recursive_modeling ≤ s.recursive_modeling_score ∧
       t.memory_integrity ≤ s.memory_integrity_score)) ∧
    (∀ m : List (String × ℚ),
      is_conscious { s with domain_stabilization := m } t =
        is_conscious s t) := by
  constructor
  · rw [is_conscious_eq_true, hreq]
    simp [not_lt]
  · intro m
    refine bool_eq_of_iff ?_
    rw [is_conscious_eq_true, is_conscious_eq_true, hreq]
    simp

/-- Witness for C6: on a state whose scalars pass, the empty-required
policy returns `True` and replacing the mapping changes nothing. -/
theorem C6_empty_required_witness :
    (is_conscious passingState emptyReqPolicy = true ↔
      (passingState.global_delta_c ≤ emptyReqPolicy.delta_c ∧
       emptyReqPolicy.recursive_modeling ≤ passingState.recursive_modeling_score ∧
       emptyReqPolicy.memory_integrity ≤ passingState.memory_integrity_score)) ∧
    is_conscious { passingState with domain_stabilization := [("mind", 0)] }
        emptyReqPolicy
      = is_conscious passingState emptyReqPolicy := by
  have h := C6_empty_required passingState emptyReqPolicy rfl
  exact ⟨h.1, h.2 [("mind", 0)]⟩

/-- Claim C7: two policies that differ only in the order of their
required-domains lists produce the same verdict on every state. -/
theorem C7_order_irrelevant (s : CTState) (t1 t2 : Thresholds)
    (hdc : t1.delta_c = t2.delta_c)
    (hrm : t1.recursive_modeling = t2.recursive_modeling)
    (hmi : t1.memory_integrity = t2.memory_integrity)
    (hmd : t1.min_domain_stabilization = t2.min_domain_stabilization)
    (hperm : t1.required_domains.Perm t2.required_domains) :
    is_conscious s t1 = is_conscious s t2 := by
  refine bool_eq_of_iff ?_
  rw [is_conscious_eq_true, is_conscious_eq_true, hdc, hrm, hmi, hmd]
  constructor
  · rintro ⟨h1, h2, h3, h4⟩
    exact ⟨h1, h2, h3, fun d hd => h4 d (hperm.mem_iff.mpr hd)⟩
  · rintro ⟨h1, h2, h3, h4⟩
    exact ⟨h1, h2, h3, fun d hd => h4 d (hperm.mem_iff.mp hd)⟩

/-- Witness for C7: reversing the two required domains of `samplePolicy`
leaves the verdict on `sampleState` unchanged. -/
theorem C7_order_irrelevant_witness :
    is_conscious sampleState samplePolicy =
      is_conscious sampleState samplePolicyRev :=
  C7_order_irrelevant sampleState samplePolicy samplePolicyRev
    rfl rfl rfl rfl (List.Perm.swap "time" "mind" [])

/-- Claim C8: the evaluation has no side effects: the state coming out of
the call equals the state before it, in all three scalar fields and the
entire domain mapping. -/
theorem C8_evaluate_pure (s : CTState) (t : Option ThresholdsDict) :
    (is_conscious_call s t).2.global_delta_c = s.global_delta_c ∧
    (is_conscious_call s t).2.recursive_modeling_score =
      s.recursive_modeling_score ∧
    (is_conscious_call s t).2.memory_integrity_score =
      s.memory_integrity_score ∧
    (is_conscious_call s t).2.domain_stabilization = s.domain_stabilization :=
  ⟨rfl, rfl, rfl, rfl⟩

/-- Claim C9: a policy dictionary lacking an expected key can make the
evaluation end in a lookup error (modelled as `none`) instead of a
boolean, while only the omitted-policy call falls back to the built-in
defaults. -/
theorem C9_missing_key_errors :
    is_conscious_dict passingState onlyDeltaC = none ∧
    (∀ s : CTState, is_conscious_opt s none =
      some (is_conscious s default_thresholds)) := by
  constructor
  · have hlt : ¬ passingState.global_delta_c > (1/10 : ℚ) := by
      norm_num [passingState]
    simp only [is_conscious_dict, onlyDeltaC, if_neg hlt]
  · intro s
    exact is_conscious_dict_toDict s default_thresholds

/-- Claim C10: the domain mapping's key set never shrinks: every call
preserves the keys already present, and after any call sequence from the
fresh state the key set is exactly the set of keys named by the updates
performed. -/
theorem C10_keys_only_grow (s : CTState) (op : Op) (ops : List Op)
    (k : String) (hk : k ∈ keysD s.domain_stabilization) :
    k ∈ keysD (applyOp s op).domain_stabilization ∧
    (k ∈ keysD (runOps initState ops).domain_stabilization ↔
      ∃ o ∈ ops, k ∈ opKeys o) := by
  constructor
  · cases op with
    | updateOp dc rs ms du =>
      exact (mem_keysD_foldSet du s.domain_stabilization k).mpr (Or.inl hk)
    | evalOp t => exact hk
  · rw [mem_keysD_runOps]
    simp [initState]

/-- Witness for C10: the key time survives an evaluation call, and after
one update from the fresh state the key set is the update's key set. -/
theorem C10_keys_only_grow_witness :
    "time" ∈ keysD (applyOp sampleState (Op.evalOp none)).domain_stabilization ∧
    ("time" ∈ keysD (runOps initState
        [Op.updateOp (5/100) (9/10) (9/10) sampleUpdates]).domain_stabilization ↔
      ∃ o ∈ [Op.updateOp (5/100) (9/10) (9/10) sampleUpdates],
        "time" ∈ opKeys o) :=
  C10_keys_only_grow sampleState (Op.evalOp none)
    [Op.updateOp (5/100) (9/10) (9/10) sampleUpdates] "time"
    (by simp +decide [sampleState, update_metrics, initState, sampleUpdates,
      setEntry, List.foldl_cons, List.foldl_nil])

end ArchitectsForge
